import Mathlib

/-!
A verification development for the configuration subsystem of
`duo_log_sync` (`duologsync/config.py`).

The Python data values flowing through the config store are YAML-derived
Python objects: `None`, booleans, numbers, strings, lists and dicts.  We
embed them as the inductive type `Value` below.  A Python dict is embedded
as an association list in insertion order; `Value.vnone` is the Python
value `None`.  An absent key and a key explicitly bound to `None` are both
representable (the pair is simply missing from the list, versus present
with value `vnone`), and `dget` — the embedding of Python's `dict.get`
with its default of `None` — returns `vnone` in both cases, exactly as the
source does.

Numbers are embedded as `Int`.  The schema field `logs.polling.duration`
is declared as a cerberus `number` (so a YAML float would also pass the
schema); the claims under study are insensitive to the int/float
distinction, so the embedding uses integers throughout.
-/

set_option autoImplicit false

namespace DuoLogSync

/-- Embedding of the Python/YAML values stored in a configuration. -/
inductive Value where
  | vnone  : Value
  | vbool  : Bool → Value
  | vint   : Int → Value
  | vstr   : String → Value
  | vlist  : List Value → Value
  | vdict  : List (String × Value) → Value
deriving Repr

/-- Embedding of Python's `x is None` test. -/
def Value.isNull : Value → Bool
  | .vnone => true
  | _ => false

/-- Embedding of `dict.get(key)` on the underlying association list:
the first binding of `k` wins, and an absent key yields `None`. -/
def dget (ps : List (String × Value)) (k : String) : Value :=
  match ps with
  | [] => .vnone
  | (k', v) :: rest => if k' = k then v else dget rest k

/-- Embedding of `d[key] = v` on the association list: the first binding
of `k` is replaced in place, a fresh key is appended at the end (Python
dicts preserve insertion order). -/
def dset (ps : List (String × Value)) (k : String) (v : Value) :
    List (String × Value) :=
  match ps with
  | [] => [(k, v)]
  | (k', v') :: rest =>
      if k' = k then (k, v) :: rest else (k', v') :: dset rest k v

/-- Embedding of `value.get(key)`: Python raises `AttributeError` when the receiver is
not a dict; we model the exception as `none`. -/
def pyget (v : Value) (k : String) : Option Value :=
  match v with
  | .vdict ps => some (dget ps k)
  | _ => none

/-- Embedding of `value[key]` (`__getitem__`): `KeyError` when the key is absent,
`AttributeError`-like failure when the receiver is not a dict; both are
modelled as `none`.  A key bound to `None` is found. -/
def pyitem (v : Value) (k : String) : Option Value :=
  match v with
  | .vdict ps =>
      match ps.lookup k with
      | some x => some x
      | none => none
  | _ => none

/-- Embedding of `value[key] = x` on a dict receiver, failure otherwise. -/
def pysetKey (v : Value) (k : String) (x : Value) : Option Value :=
  match v with
  | .vdict ps => some (.vdict (dset ps k x))
  | _ => none

/-- Embedding of `value[k1][k2] = x`: fetch the nested dict, update it, write it back
(Python mutates the shared nested dict in place; value-semantically this
is a rebuild). -/
def pysetKey2 (v : Value) (k1 k2 : String) (x : Value) : Option Value := do
  let sub ← pyitem v k1
  let sub' ← pysetKey sub k2 x
  pysetKey v k1 sub'

/-- Embedding of `value[k1][k2][k3] = x`. -/
def pysetKey3 (v : Value) (k1 k2 k3 : String) (x : Value) : Option Value := do
  let sub ← pyitem v k1
  let sub' ← pysetKey2 sub k2 k3 x
  pysetKey v k1 sub'

/-- Total read of a key out of a `Value`, yielding `None` when the
receiver is not a dict.  Used only to state theorems about paths in a
configuration, never inside the embedded code. -/
def vget (v : Value) (k : String) : Value :=
  match v with
  | .vdict ps => dget ps k
  | _ => .vnone

/-! ## The Config store

`Config` in the source is a class-level store: a `_config` variable
(initially `None`) and a `_config_is_set` flag (initially `False`).  We
embed the pair as `ConfigState` and each classmethod as a function on it.
The Python exceptions raised by the store are embedded as `ConfigError`:
`notSet` is the `RuntimeError` of `check_config_is_set`, `alreadySet` the
`RuntimeError` of `set_config`, `invalidKey` the `ValueError` of
`get_value`, and `attributeError` the `AttributeError` Python raises when
`get_value` calls `.get` on a non-dict intermediate value. -/

/-- The class-level state of `Config`. -/
structure ConfigState where
  config : Value
  config_is_set : Bool
deriving Repr

/-- The state at process start: `_config = None`, `_config_is_set = False`. -/
def initialState : ConfigState := { config := .vnone, config_is_set := false }

/-- The exceptions the `Config` store can raise. -/
inductive ConfigError where
  | notSet
  | alreadySet
  | invalidKey (k : String)
  | attributeError
deriving Repr, DecidableEq

/-- Embedding of `Config.set_config`: raises when the store is already set, otherwise
installs the given configuration and flips the flag. -/
def set_config (s : ConfigState) (c : Value) : Except ConfigError ConfigState :=
  if s.config_is_set then .error .alreadySet
  else .ok { config := c, config_is_set := true }

/-- The loop body of `Config.get_value`: for each key, call
`curr_value.get(key)` (an `AttributeError` if `curr_value` is not a dict)
and raise `ValueError` if the result `is None`. -/
def get_value_loop (curr : Value) (keys : List String) :
    Except ConfigError Value :=
  match keys with
  | [] => .ok curr
  | k :: ks =>
      match curr with
      | .vdict ps =>
          let next := dget ps k
          if next.isNull then .error (.invalidKey k)
          else get_value_loop next ks
      | _ => .error .attributeError

/-- Embedding of `Config.get_value`: `check_config_is_set` first, then the descent. -/
def get_value (s : ConfigState) (keys : List String) :
    Except ConfigError Value :=
  if s.config_is_set then get_value_loop s.config keys
  else .error .notSet

/-! ## The schema and its validator

`Config.validate_config` builds a cerberus `Validator` over the `SCHEMA`
dictionary of `config.py` and raises a `RuntimeError` carrying
`schema.errors` — cerberus's collected error mapping — when
`schema.validate(config)` is false.  The cerberus engine itself is a
third-party library whose code is not part of this repository. -/

/-- The constant `VALID_ENDPOINTS` of `config.py`. -/
def VALID_ENDPOINTS : List String := ["adminaction", "auth", "telephony"]

/-- The constant `MINIMUM_POLLING_DURATION` of `config.py`. -/
def MINIMUM_POLLING_DURATION : Int := 120

/-- The constant `DEFAULT_DIRECTORY` of `config.py`. -/
def DEFAULT_DIRECTORY : String := "/tmp"

/-- The constant `DEFAULT_DAYS_IN_PAST` of `config.py`. -/
def DEFAULT_DAYS_IN_PAST : Int := 180

/-- Check for a required, non-empty string field (cerberus
`{'type': 'string', 'required': True, 'empty': False}`).  An absent key
and a key bound to `None` are both violations. -/
def vioReqStr (path : String) (v : Value) : List String :=
  match v with
  | .vnone => [path ++ ": required field"]
  | .vstr s => if s = "" then [path ++ ": empty values not allowed"] else []
  | _ => [path ++ ": must be of string type"]

/-- Check for an optional, non-empty string field (cerberus
`{'type': 'string', 'empty': False}`). -/
def vioOptStr (path : String) (v : Value) : List String :=
  match v with
  | .vnone => []
  | .vstr s => if s = "" then [path ++ ": empty values not allowed"] else []
  | _ => [path ++ ": must be of string type"]

/-- One element of the `logs.endpoints.enabled` list: must be a string
drawn from `VALID_ENDPOINTS`. -/
def vioEndpointElem (v : Value) : Option String :=
  match v with
  | .vstr s =>
      if VALID_ENDPOINTS.contains s then none
      else some ("logs.endpoints.enabled: unallowed value " ++ s)
  | _ => some "logs.endpoints.enabled: must contain strings"

/-- Check of `logs.endpoints.enabled`: required, a string or a list, non-empty,
every value drawn from `VALID_ENDPOINTS`. -/
def vioEnabled (v : Value) : List String :=
  match v with
  | .vnone => ["logs.endpoints.enabled: required field"]
  | .vstr s =>
      (if s = "" then ["logs.endpoints.enabled: empty values not allowed"]
       else []) ++
      (if VALID_ENDPOINTS.contains s then []
       else ["logs.endpoints.enabled: unallowed value " ++ s])
  | .vlist l =>
      (if l.isEmpty then ["logs.endpoints.enabled: empty values not allowed"]
       else []) ++ l.filterMap vioEndpointElem
  | _ => ["logs.endpoints.enabled: must be of string or list type"]

/-- Check of `logs.polling.duration`: optional number. -/
def vioDuration (v : Value) : List String :=
  match v with
  | .vnone => []
  | .vint _ => []
  | _ => ["logs.polling.duration: must be of number type"]

/-- Check of `logs.polling.daysinpast`: optional integer with `min` 0. -/
def vioDaysinpast (v : Value) : List String :=
  match v with
  | .vnone => []
  | .vint n => if n < 0 then ["logs.polling.daysinpast: min value is 0"] else []
  | _ => ["logs.polling.daysinpast: must be of integer type"]

/-- Check of `logs.polling`: optional sub-dict. -/
def vioPolling (v : Value) : List String :=
  match v with
  | .vnone => []
  | .vdict ps =>
      vioDuration (dget ps "duration") ++ vioDaysinpast (dget ps "daysinpast")
  | _ => ["logs.polling: must be of dict type"]

/-- Check of `logs.endpoints`: required sub-dict holding `enabled`. -/
def vioEndpoints (v : Value) : List String :=
  match v with
  | .vnone => ["logs.endpoints: required field"]
  | .vdict ps => vioEnabled (dget ps "enabled")
  | _ => ["logs.endpoints: must be of dict type"]

/-- The `logs` section of the schema. -/
def vioLogs (v : Value) : List String :=
  match v with
  | .vnone => ["logs: required field"]
  | .vdict ps =>
      vioOptStr "logs.logDir" (dget ps "logDir") ++
      vioEndpoints (dget ps "endpoints") ++
      vioPolling (dget ps "polling") ++
      vioOptStr "logs.checkpointDir" (dget ps "checkpointDir")
  | _ => ["logs: must be of dict type"]

/-- The `duoclient` section of the schema: required dict of three
required non-empty strings. -/
def vioDuoclient (v : Value) : List String :=
  match v with
  | .vnone => ["duoclient: required field"]
  | .vdict ps =>
      vioReqStr "duoclient.skey" (dget ps "skey") ++
      vioReqStr "duoclient.ikey" (dget ps "ikey") ++
      vioReqStr "duoclient.host" (dget ps "host")
  | _ => ["duoclient: must be of dict type"]

/-- Check of `transport.protocol` with its `oneof` rule: `TCPSSL` additionally
requires the `certFileDir` and `certFileName` keys to be present in the
`transport` sub-document (`dependencies`); `TCP` and `UDP` carry no such
requirement; anything else is an unallowed value. -/
def vioProtocol (tps : List (String × Value)) (v : Value) : List String :=
  match v with
  | .vnone => ["transport.protocol: required field"]
  | .vstr s =>
      if s = "TCPSSL" then
        (if (dget tps "certFileDir").isNull then
          ["transport.protocol: field certFileDir is required when protocol is TCPSSL"]
         else []) ++
        (if (dget tps "certFileName").isNull then
          ["transport.protocol: field certFileName is required when protocol is TCPSSL"]
         else [])
      else if s = "TCP" ∨ s = "UDP" then []
      else ["transport.protocol: unallowed value " ++ s]
  | _ => ["transport.protocol: must be of string type"]

/-- Check of `transport.port`: required integer in `0..65535`. -/
def vioPort (v : Value) : List String :=
  match v with
  | .vnone => ["transport.port: required field"]
  | .vint n =>
      if n < 0 ∨ 65535 < n then ["transport.port: value out of range"] else []
  | _ => ["transport.port: must be of integer type"]

/-- The `transport` section of the schema. -/
def vioTransport (v : Value) : List String :=
  match v with
  | .vnone => ["transport: required field"]
  | .vdict tps =>
      vioProtocol tps (dget tps "protocol") ++
      vioReqStr "transport.host" (dget tps "host") ++
      vioPort (dget tps "port") ++
      vioOptStr "transport.certFileDir" (dget tps "certFileDir") ++
      vioOptStr "transport.certFileName" (dget tps "certFileName")
  | _ => ["transport: must be of dict type"]

/-- The `recoverFromCheckpoint` section: optional dict with an optional
boolean `enabled`. -/
def vioRecover (v : Value) : List String :=
  match v with
  | .vnone => []
  | .vdict rps =>
      match dget rps "enabled" with
      | .vnone => []
      | .vbool _ => []
      | _ => ["recoverFromCheckpoint.enabled: must be of boolean type"]
  | _ => ["recoverFromCheckpoint: must be of dict type"]

/-- Modelled from the spec: the cerberus `Validator` engine is a
third-party library, not code under this repository's source; this
function transcribes the `SCHEMA` of `config.py` as the spec's §3 table
reads it, visiting every section and collecting the violations of all
fields (field path plus reason), in schema order, never stopping at the
first. -/
def collectViolations (ps : List (String × Value)) : List String :=
  vioDuoclient (dget ps "duoclient") ++
  vioLogs (dget ps "logs") ++
  vioTransport (dget ps "transport") ++
  vioRecover (dget ps "recoverFromCheckpoint")

/-- Embedding of `Config.validate_config`: runs the validator and raises a
`RuntimeError` carrying the collected `schema.errors` when validation
fails.  (A non-dict document is rejected outright, as cerberus does.) -/
def validate_config (c : Value) : Except (List String) Unit :=
  match c with
  | .vdict ps =>
      if collectViolations ps = [] then .ok ()
      else .error (collectViolations ps)
  | _ => .error ["document root: must be of dict type"]

/-! ## `Config.set_config_defaults`

The source mutates the given config dict block by block, printing one
diagnostic line per applied default.  We embed each block as a step
`Value → Option (Value × List String)` — `none` models the Python
exceptions (`AttributeError`/`KeyError`/`TypeError`) that escape when the
config does not have the dict structure the code assumes — and
`set_config_defaults` as their sequential composition, threading the
configuration and concatenating the printed lines in program order.

Time is abstracted: the parameter `now` stands for
`int(datetime.utcnow().timestamp())` at the moment of the call, so that
`int((datetime.utcnow() - timedelta(days=d)).timestamp())` is
`now - d * 86400` (a `timedelta` of `d` days shifts the timestamp by
exactly `d * 86400` seconds). -/

/-- The `default_msg` format string of `set_config_defaults`, applied to
a field path and the printed form of the default value. -/
def default_msg (path value : String) : String :=
  "Config: No value given for " ++ path ++ ", using default value of " ++ value

/-- The distinct message printed when `logs.polling.duration` is present
but below the minimum. -/
def too_low_msg : String :=
  "Config: Value given for logs.polling.duration was too low. Set to default value of 120"

/-- Embedding of the Python comparison `value < n` against an int bound:
defined on numbers (a Python bool is an int), a `TypeError` otherwise. -/
def pyLtInt (v : Value) (n : Int) : Option Bool :=
  match v with
  | .vint m => some (decide (m < n))
  | .vbool b => some (decide ((if b then (1 : Int) else 0) < n))
  | _ => none

/-- Embedding of the number expected by `timedelta(days=...)`:
an int (or bool), a `TypeError` otherwise. -/
def pyAsInt (v : Value) : Option Int :=
  match v with
  | .vint n => some n
  | .vbool b => some (if b then 1 else 0)
  | _ => none

/-- Block `if config.get('logs').get('polling') is None:
config['logs']['polling'] = {}`. -/
def sd_polling_init (c : Value) : Option Value := do
  let l ← pyget c "logs"
  let p ← pyget l "polling"
  if p.isNull then pysetKey2 c "logs" "polling" (.vdict []) else pure c

/-- Block `if config.get('recoverFromCheckpoint') is None:
config['recoverFromCheckpoint'] = {}`. -/
def sd_recover_init (c : Value) : Option Value := do
  let r ← pyget c "recoverFromCheckpoint"
  if r.isNull then pysetKey c "recoverFromCheckpoint" (.vdict []) else pure c

/-- The common shape of the source's optional-field blocks at depth two:
`if config.get(sect).get(key) is None: print(msg); config[sect][key] = dflt`. -/
def sd_opt2 (sect key : String) (dflt : Value) (msg : String) (c : Value) :
    Option (Value × List String) := do
  let s ← pyget c sect
  let v ← pyget s key
  if v.isNull then do
    let c' ← pysetKey2 c sect key dflt
    pure (c', [msg])
  else pure (c, [])

/-- The common shape of the optional-field blocks under `logs.polling`:
`if config.get('logs').get('polling').get(key) is None: print(msg);
config['logs']['polling'][key] = dflt`. -/
def sd_opt3 (key : String) (dflt : Value) (msg : String) (c : Value) :
    Option (Value × List String) := do
  let l ← pyget c "logs"
  let p ← pyget l "polling"
  let v ← pyget p key
  if v.isNull then do
    let c' ← pysetKey3 c "logs" "polling" key dflt
    pure (c', [msg])
  else pure (c, [])

/-- Block `if config.get('logs').get('logDir') is None: print(...);
config['logs']['logDir'] = DEFAULT_DIRECTORY`. -/
def sd_logdir : Value → Option (Value × List String) :=
  sd_opt2 "logs" "logDir" (.vstr DEFAULT_DIRECTORY)
    (default_msg "logs.logDir" DEFAULT_DIRECTORY)

/-- The `polling_duration` block: absent (`None`) means default `120`
with the "no value given" line; present but `< 120` means clamping to
`120` with the distinct "too low" line; otherwise untouched. -/
def sd_duration (c : Value) : Option (Value × List String) := do
  let l ← pyget c "logs"
  let p ← pyget l "polling"
  let dur ← pyget p "duration"
  if dur.isNull then do
    let c' ← pysetKey3 c "logs" "polling" "duration" (.vint MINIMUM_POLLING_DURATION)
    pure (c', [default_msg "logs.polling.duration" "120"])
  else do
    let lt ← pyLtInt dur MINIMUM_POLLING_DURATION
    if lt then do
      let c' ← pysetKey3 c "logs" "polling" "duration" (.vint MINIMUM_POLLING_DURATION)
      pure (c', [too_low_msg])
    else pure (c, [])

/-- Block `if config.get('logs').get('polling').get('daysinpast') is None`. -/
def sd_daysinpast : Value → Option (Value × List String) :=
  sd_opt3 "daysinpast" (.vint DEFAULT_DAYS_IN_PAST)
    (default_msg "logs.polling.daysinpast" "180")

/-- Block `if config.get('logs').get('checkpointDir') is None`. -/
def sd_checkpointdir : Value → Option (Value × List String) :=
  sd_opt2 "logs" "checkpointDir" (.vstr DEFAULT_DIRECTORY)
    (default_msg "logs.checkpointDir" DEFAULT_DIRECTORY)

/-- Block `if config.get('recoverFromCheckpoint').get('enabled') is None`
(Python prints the default `False` capitalized). -/
def sd_recover_enabled : Value → Option (Value × List String) :=
  sd_opt2 "recoverFromCheckpoint" "enabled" (.vbool false)
    (default_msg "recoverFromCheckpoint.enabled" "False")

/-- The final block: `days_in_past = config['logs']['polling']['daysinpast']`
and `config['logs']['offset'] = int((utcnow() - timedelta(days)).timestamp())`,
written unconditionally. -/
def sd_offset (now : Int) (c : Value) : Option Value := do
  let l ← pyitem c "logs"
  let p ← pyitem l "polling"
  let dip ← pyitem p "daysinpast"
  let days ← pyAsInt dip
  pysetKey2 c "logs" "offset" (.vint (now - days * 86400))

/-- Embedding of `Config.set_config_defaults`: the blocks of the source in program
order, returning the defaulted configuration together with the printed
diagnostic lines. -/
def set_config_defaults (now : Int) (config : Value) :
    Option (Value × List String) := do
  let c1 ← sd_polling_init config
  let c2 ← sd_recover_init c1
  let (c3, d3) ← sd_logdir c2
  let (c4, d4) ← sd_duration c3
  let (c5, d5) ← sd_daysinpast c4
  let (c6, d6) ← sd_checkpointdir c5
  let (c7, d7) ← sd_recover_enabled c6
  let c8 ← sd_offset now c7
  pure (c8, d3 ++ d4 ++ d5 ++ d6 ++ d7)

/-! ## Basic lemmas about the dict embedding -/

theorem Value.isNull_eq_true {v : Value} : v.isNull = true ↔ v = .vnone := by
  cases v <;> simp [Value.isNull]

theorem dget_dset_self (ps : List (String × Value)) (k : String) (v : Value) :
    dget (dset ps k v) k = v := by
  induction ps with
  | nil => simp [dget, dset]
  | cons p rest ih =>
      obtain ⟨k', v'⟩ := p
      by_cases h : k' = k
      · simp [dget, dset, h]
      · simp [dget, dset, h, ih]

theorem dget_dset_ne (ps : List (String × Value)) (k k' : String) (v : Value)
    (h : k' ≠ k) : dget (dset ps k v) k' = dget ps k' := by
  induction ps with
  | nil => simp [dget, dset, Ne.symm h]
  | cons p rest ih =>
      obtain ⟨k0, v0⟩ := p
      simp only [dset]
      by_cases h0 : k0 = k
      · subst h0
        simp [dget, Ne.symm h]
      · simp only [if_neg h0, dget]
        by_cases h1 : k0 = k'
        · simp [h1]
        · simp [h1, ih]

theorem lookup_of_dget_ne {ps : List (String × Value)} {k : String}
    {v : Value} (h : dget ps k = v) (hv : v ≠ .vnone) :
    ps.lookup k = some v := by
  induction ps with
  | nil =>
      simp only [dget] at h
      exact absurd h.symm hv
  | cons p rest ih =>
      obtain ⟨k0, v0⟩ := p
      by_cases h0 : k0 = k
      · subst h0
        simp only [dget, if_pos rfl] at h
        subst h
        simp [List.lookup]
      · simp only [dget, if_neg h0] at h
        have hb : (k == k0) = false :=
          beq_eq_false_iff_ne.mpr fun he => h0 he.symm
        simpa [List.lookup, hb] using ih h

/-! ## Characterizations of the `set_config_defaults` steps

Each step lemma assumes just enough dict structure for the Python block
not to raise, produces the updated dicts, and records which keys the
block leaves untouched (the frame conditions used to chain the steps). -/

theorem sd_polling_init_spec (ps lps : List (String × Value))
    (hl : dget ps "logs" = .vdict lps)
    (hpol : dget lps "polling" = .vnone ∨
      ∃ pps, dget lps "polling" = .vdict pps) :
    ∃ ps' lps' pps',
      sd_polling_init (.vdict ps) = some (.vdict ps') ∧
      dget ps' "logs" = .vdict lps' ∧
      dget lps' "polling" = .vdict pps' ∧
      (∀ k, k ≠ "logs" → dget ps' k = dget ps k) ∧
      (∀ k, k ≠ "polling" → dget lps' k = dget lps k) ∧
      (dget lps "polling" = .vnone → pps' = []) ∧
      (∀ pps, dget lps "polling" = .vdict pps → pps' = pps) := by
  have hlk : ps.lookup "logs" = some (.vdict lps) :=
    lookup_of_dget_ne hl (by simp)
  rcases hpol with hnone | ⟨pps, hdict⟩
  · refine ⟨dset ps "logs" (.vdict (dset lps "polling" (.vdict []))),
      dset lps "polling" (.vdict []), [], ?_, ?_, ?_, ?_, ?_, ?_, ?_⟩
    · simp [sd_polling_init, pyget, hl, hnone, Value.isNull, pysetKey2,
        pyitem, hlk, pysetKey]
    · exact dget_dset_self ps "logs" _
    · exact dget_dset_self lps "polling" _
    · intro k hk; exact dget_dset_ne ps "logs" k _ hk
    · intro k hk; exact dget_dset_ne lps "polling" k _ hk
    · intro _; rfl
    · intro pps h; rw [hnone] at h; cases h
  · refine ⟨ps, lps, pps, ?_, hl, hdict, ?_, ?_, ?_, ?_⟩
    · simp [sd_polling_init, pyget, hl, hdict, Value.isNull]
    · intro k _; rfl
    · intro k _; rfl
    · intro h; rw [hdict] at h; cases h
    · intro pps' h
      rw [hdict] at h
      injection h with h

theorem sd_recover_init_spec (ps : List (String × Value))
    (hrec : dget ps "recoverFromCheckpoint" = .vnone ∨
      ∃ rps, dget ps "recoverFromCheckpoint" = .vdict rps) :
    ∃ ps' rps',
      sd_recover_init (.vdict ps) = some (.vdict ps') ∧
      dget ps' "recoverFromCheckpoint" = .vdict rps' ∧
      (∀ k, k ≠ "recoverFromCheckpoint" → dget ps' k = dget ps k) ∧
      (dget ps "recoverFromCheckpoint" = .vnone → rps' = []) ∧
      (∀ rps, dget ps "recoverFromCheckpoint" = .vdict rps → rps' = rps) := by
  rcases hrec with hnone | ⟨rps, hdict⟩
  · refine ⟨dset ps "recoverFromCheckpoint" (.vdict []), [], ?_, ?_, ?_, ?_, ?_⟩
    · simp [sd_recover_init, pyget, hnone, Value.isNull, pysetKey]
    · exact dget_dset_self ps "recoverFromCheckpoint" _
    · intro k hk; exact dget_dset_ne ps "recoverFromCheckpoint" k _ hk
    · intro _; rfl
    · intro rps h; rw [hnone] at h; cases h
  · refine ⟨ps, rps, ?_, hdict, ?_, ?_, ?_⟩
    · simp [sd_recover_init, pyget, hdict, Value.isNull]
    · intro k _; rfl
    · intro h; rw [hdict] at h; cases h
    · intro rps' h
      rw [hdict] at h
      injection h with h

theorem sd_opt2_spec (sect key : String) (dflt : Value) (msg : String)
    (ps sps : List (String × Value)) (hs : dget ps sect = .vdict sps) :
    ∃ ps' sps',
      sd_opt2 sect key dflt msg (.vdict ps) =
        some (.vdict ps', if (dget sps key).isNull then [msg] else []) ∧
      dget ps' sect = .vdict sps' ∧
      dget sps' key = (if (dget sps key).isNull then dflt else dget sps key) ∧
      (∀ k, k ≠ sect → dget ps' k = dget ps k) ∧
      (∀ k, k ≠ key → dget sps' k = dget sps k) := by
  have hlk : ps.lookup sect = some (.vdict sps) :=
    lookup_of_dget_ne hs (by simp)
  by_cases hnull : (dget sps key).isNull
  · refine ⟨dset ps sect (.vdict (dset sps key dflt)), dset sps key dflt,
      ?_, dget_dset_self ps sect _, ?_, ?_, ?_⟩
    · simp [sd_opt2, pyget, hs, hnull, pysetKey2, pyitem, hlk, pysetKey]
    · simp [hnull, dget_dset_self]
    · intro k hk; exact dget_dset_ne ps sect k _ hk
    · intro k hk; exact dget_dset_ne sps key k _ hk
  · refine ⟨ps, sps, ?_, hs, ?_, fun k _ => rfl, fun k _ => rfl⟩
    · simp [sd_opt2, pyget, hs, hnull]
    · simp [hnull]

theorem sd_opt3_spec (key : String) (dflt : Value) (msg : String)
    (ps lps pps : List (String × Value))
    (hl : dget ps "logs" = .vdict lps)
    (hp : dget lps "polling" = .vdict pps) :
    ∃ ps' lps' pps',
      sd_opt3 key dflt msg (.vdict ps) =
        some (.vdict ps', if (dget pps key).isNull then [msg] else []) ∧
      dget ps' "logs" = .vdict lps' ∧
      dget lps' "polling" = .vdict pps' ∧
      dget pps' key = (if (dget pps key).isNull then dflt else dget pps key) ∧
      (∀ k, k ≠ "logs" → dget ps' k = dget ps k) ∧
      (∀ k, k ≠ "polling" → dget lps' k = dget lps k) ∧
      (∀ k, k ≠ key → dget pps' k = dget pps k) := by
  have hlk1 : ps.lookup "logs" = some (.vdict lps) :=
    lookup_of_dget_ne hl (by simp)
  have hlk2 : lps.lookup "polling" = some (.vdict pps) :=
    lookup_of_dget_ne hp (by simp)
  by_cases hnull : (dget pps key).isNull
  · refine ⟨dset ps "logs"
        (.vdict (dset lps "polling" (.vdict (dset pps key dflt)))),
      dset lps "polling" (.vdict (dset pps key dflt)), dset pps key dflt,
      ?_, dget_dset_self ps "logs" _, dget_dset_self lps "polling" _,
      ?_, ?_, ?_, ?_⟩
    · simp [sd_opt3, pyget, hl, hp, hnull, pysetKey3, pysetKey2, pyitem,
        hlk1, hlk2, pysetKey]
    · simp [hnull, dget_dset_self]
    · intro k hk; exact dget_dset_ne ps "logs" k _ hk
    · intro k hk; exact dget_dset_ne lps "polling" k _ hk
    · intro k hk; exact dget_dset_ne pps key k _ hk
  · refine ⟨ps, lps, pps, ?_, hl, hp, ?_, fun k _ => rfl, fun k _ => rfl,
      fun k _ => rfl⟩
    · simp [sd_opt3, pyget, hl, hp, hnull]
    · simp [hnull]

theorem sd_duration_spec (ps lps pps : List (String × Value))
    (hl : dget ps "logs" = .vdict lps)
    (hp : dget lps "polling" = .vdict pps)
    (hdur : dget pps "duration" = .vnone ∨
      ∃ n : Int, dget pps "duration" = .vint n) :
    ∃ ps' lps' pps' ds,
      sd_duration (.vdict ps) = some (.vdict ps', ds) ∧
      dget ps' "logs" = .vdict lps' ∧
      dget lps' "polling" = .vdict pps' ∧
      (∀ k, k ≠ "logs" → dget ps' k = dget ps k) ∧
      (∀ k, k ≠ "polling" → dget lps' k = dget lps k) ∧
      (∀ k, k ≠ "duration" → dget pps' k = dget pps k) ∧
      (dget pps "duration" = .vnone →
        dget pps' "duration" = .vint 120 ∧
        ds = [default_msg "logs.polling.duration" "120"]) ∧
      (∀ n : Int, dget pps "duration" = .vint n → n < 120 →
        dget pps' "duration" = .vint 120 ∧ ds = [too_low_msg]) ∧
      (∀ n : Int, dget pps "duration" = .vint n → 120 ≤ n →
        dget pps' "duration" = .vint n ∧ ds = []) := by
  have hlk1 : ps.lookup "logs" = some (.vdict lps) :=
    lookup_of_dget_ne hl (by simp)
  have hlk2 : lps.lookup "polling" = some (.vdict pps) :=
    lookup_of_dget_ne hp (by simp)
  rcases hdur with hnone | ⟨n, hint⟩
  · refine ⟨dset ps "logs"
        (.vdict (dset lps "polling"
          (.vdict (dset pps "duration" (.vint MINIMUM_POLLING_DURATION))))),
      dset lps "polling"
        (.vdict (dset pps "duration" (.vint MINIMUM_POLLING_DURATION))),
      dset pps "duration" (.vint MINIMUM_POLLING_DURATION),
      [default_msg "logs.polling.duration" "120"],
      ?_, dget_dset_self ps "logs" _, dget_dset_self lps "polling" _,
      ?_, ?_, ?_, ?_, ?_, ?_⟩
    · simp [sd_duration, pyget, hl, hp, hnone, Value.isNull, pysetKey3,
        pysetKey2, pyitem, hlk1, hlk2, pysetKey]
    · intro k hk; exact dget_dset_ne ps "logs" k _ hk
    · intro k hk; exact dget_dset_ne lps "polling" k _ hk
    · intro k hk; exact dget_dset_ne pps "duration" k _ hk
    · intro _
      exact ⟨dget_dset_self pps "duration" _, rfl⟩
    · intro m hm; rw [hnone] at hm; cases hm
    · intro m hm; rw [hnone] at hm; cases hm
  · by_cases hlt : n < 120
    · refine ⟨dset ps "logs"
          (.vdict (dset lps "polling"
            (.vdict (dset pps "duration" (.vint MINIMUM_POLLING_DURATION))))),
        dset lps "polling"
          (.vdict (dset pps "duration" (.vint MINIMUM_POLLING_DURATION))),
        dset pps "duration" (.vint MINIMUM_POLLING_DURATION),
        [too_low_msg],
        ?_, dget_dset_self ps "logs" _, dget_dset_self lps "polling" _,
        ?_, ?_, ?_, ?_, ?_, ?_⟩
      · simp [sd_duration, pyget, hl, hp, hint, Value.isNull, pyLtInt,
          MINIMUM_POLLING_DURATION, hlt, pysetKey3, pysetKey2, pyitem,
          hlk1, hlk2, pysetKey]
      · intro k hk; exact dget_dset_ne ps "logs" k _ hk
      · intro k hk; exact dget_dset_ne lps "polling" k _ hk
      · intro k hk; exact dget_dset_ne pps "duration" k _ hk
      · intro h; rw [hint] at h; cases h
      · intro m hm _
        exact ⟨dget_dset_self pps "duration" _, rfl⟩
      · intro m hm h120
        rw [hint] at hm
        injection hm with hm
        omega
    · refine ⟨ps, lps, pps, [], ?_, hl, hp, fun k _ => rfl, fun k _ => rfl,
        fun k _ => rfl, ?_, ?_, ?_⟩
      · simp [sd_duration, pyget, hl, hp, hint, Value.isNull, pyLtInt,
          MINIMUM_POLLING_DURATION, hlt]
      · intro h; rw [hint] at h; cases h
      · intro m hm hlt'
        rw [hint] at hm
        injection hm with hm
        omega
      · intro m hm _
        rw [hint] at hm
        exact ⟨hint.trans hm, rfl⟩

theorem sd_offset_spec (now : Int) (ps lps pps : List (String × Value))
    (d : Int) (hl : dget ps "logs" = .vdict lps)
    (hp : dget lps "polling" = .vdict pps)
    (hdip : dget pps "daysinpast" = .vint d) :
    ∃ ps' lps',
      sd_offset now (.vdict ps) = some (.vdict ps') ∧
      dget ps' "logs" = .vdict lps' ∧
      dget lps' "offset" = .vint (now - d * 86400) ∧
      (∀ k, k ≠ "logs" → dget ps' k = dget ps k) ∧
      (∀ k, k ≠ "offset" → dget lps' k = dget lps k) := by
  have hlk1 : ps.lookup "logs" = some (.vdict lps) :=
    lookup_of_dget_ne hl (by simp)
  have hlk2 : lps.lookup "polling" = some (.vdict pps) :=
    lookup_of_dget_ne hp (by simp)
  have hlk3 : pps.lookup "daysinpast" = some (.vint d) :=
    lookup_of_dget_ne hdip (by simp)
  refine ⟨dset ps "logs"
      (.vdict (dset lps "offset" (.vint (now - d * 86400)))),
    dset lps "offset" (.vint (now - d * 86400)),
    ?_, dget_dset_self ps "logs" _, dget_dset_self lps "offset" _, ?_, ?_⟩
  · simp [sd_offset, pyitem, hlk1, hlk2, hlk3, pyAsInt, pysetKey2,
      pysetKey]
  · intro k hk; exact dget_dset_ne ps "logs" k _ hk
  · intro k hk; exact dget_dset_ne lps "offset" k _ hk

/-- Master characterization of `set_config_defaults` on a configuration
with the dict structure the code assumes (which every schema-valid
configuration has): the call succeeds, each optional field ends up
defaulted or preserved with the corresponding diagnostic, `logs.offset`
is written from the effective `daysinpast`, and the `duoclient`,
`transport` and `logs.endpoints` sections are untouched. -/
theorem defaults_master (now : Int) (ps lps : List (String × Value))
    (hl : dget ps "logs" = .vdict lps)
    (hpol : dget lps "polling" = .vnone ∨
      ∃ pps, dget lps "polling" = .vdict pps)
    (hrec : dget ps "recoverFromCheckpoint" = .vnone ∨
      ∃ rps, dget ps "recoverFromCheckpoint" = .vdict rps)
    (hdur : vget (dget lps "polling") "duration" = .vnone ∨
      ∃ n : Int, vget (dget lps "polling") "duration" = .vint n)
    (hdip : vget (dget lps "polling") "daysinpast" = .vnone ∨
      ∃ m : Int, vget (dget lps "polling") "daysinpast" = .vint m) :
    ∃ ps' lps' pps' rps' ds1 ds2 ds3 ds4 ds5,
      set_config_defaults now (.vdict ps) =
        some (.vdict ps', ds1 ++ ds2 ++ ds3 ++ ds4 ++ ds5) ∧
      dget ps' "logs" = .vdict lps' ∧
      dget lps' "polling" = .vdict pps' ∧
      dget ps' "recoverFromCheckpoint" = .vdict rps' ∧
      dget ps' "duoclient" = dget ps "duoclient" ∧
      dget ps' "transport" = dget ps "transport" ∧
      dget lps' "endpoints" = dget lps "endpoints" ∧
      (dget lps "logDir" = .vnone → dget lps' "logDir" = .vstr "/tmp" ∧
        ds1 = [default_msg "logs.logDir" "/tmp"]) ∧
      (dget lps "logDir" ≠ .vnone →
        dget lps' "logDir" = dget lps "logDir" ∧ ds1 = []) ∧
      (vget (dget lps "polling") "duration" = .vnone →
        dget pps' "duration" = .vint 120 ∧
        ds2 = [default_msg "logs.polling.duration" "120"]) ∧
      (∀ n : Int, vget (dget lps "polling") "duration" = .vint n →
        n < 120 → dget pps' "duration" = .vint 120 ∧ ds2 = [too_low_msg]) ∧
      (∀ n : Int, vget (dget lps "polling") "duration" = .vint n →
        120 ≤ n → dget pps' "duration" = .vint n ∧ ds2 = []) ∧
      (vget (dget lps "polling") "daysinpast" = .vnone →
        dget pps' "daysinpast" = .vint 180 ∧
        ds3 = [default_msg "logs.polling.daysinpast" "180"]) ∧
      (vget (dget lps "polling") "daysinpast" ≠ .vnone →
        dget pps' "daysinpast" = vget (dget lps "polling") "daysinpast" ∧
        ds3 = []) ∧
      (dget lps "checkpointDir" = .vnone →
        dget lps' "checkpointDir" = .vstr "/tmp" ∧
        ds4 = [default_msg "logs.checkpointDir" "/tmp"]) ∧
      (dget lps "checkpointDir" ≠ .vnone →
        dget lps' "checkpointDir" = dget lps "checkpointDir" ∧ ds4 = []) ∧
      (vget (dget ps "recoverFromCheckpoint") "enabled" = .vnone →
        dget rps' "enabled" = .vbool false ∧
        ds5 = [default_msg "recoverFromCheckpoint.enabled" "False"]) ∧
      (vget (dget ps "recoverFromCheckpoint") "enabled" ≠ .vnone →
        dget rps' "enabled" = vget (dget ps "recoverFromCheckpoint") "enabled" ∧
        ds5 = []) ∧
      (∃ d : Int, dget pps' "daysinpast" = .vint d ∧
        dget lps' "offset" = .vint (now - d * 86400)) := by
  obtain ⟨ps1, lps1, pps1, e1, l1, p1, f1ps, f1lps, hpn, hpd⟩ :=
    sd_polling_init_spec ps lps hl hpol
  have hkey1 : ∀ k, dget pps1 k = vget (dget lps "polling") k := by
    intro k
    rcases hpol with h | ⟨pps, h⟩
    · rw [hpn h, h]; rfl
    · rw [hpd pps h, h]; rfl
  have hrec1 : dget ps1 "recoverFromCheckpoint" =
      dget ps "recoverFromCheckpoint" := f1ps _ (by decide)
  obtain ⟨ps2, rps2, e2, r2, f2, hrn, hrd⟩ :=
    sd_recover_init_spec ps1 (by rw [hrec1]; exact hrec)
  have hen2 : dget rps2 "enabled" =
      vget (dget ps "recoverFromCheckpoint") "enabled" := by
    rcases hrec with h | ⟨rps, h⟩
    · rw [hrn (hrec1.trans h), h]; rfl
    · rw [hrd rps (hrec1.trans h), h]; rfl
  have hl2 : dget ps2 "logs" = .vdict lps1 := (f2 _ (by decide)).trans l1
  obtain ⟨ps3, lps3, e3, l3, ld3, f3ps, f3lps⟩ :=
    sd_opt2_spec "logs" "logDir" (.vstr DEFAULT_DIRECTORY)
      (default_msg "logs.logDir" DEFAULT_DIRECTORY) ps2 lps1 hl2
  have hld1 : dget lps1 "logDir" = dget lps "logDir" := f1lps _ (by decide)
  have hp3 : dget lps3 "polling" = .vdict pps1 := (f3lps _ (by decide)).trans p1
  obtain ⟨ps4, lps4, pps4, ds2, e4, l4, p4, f4ps, f4lps, f4pps, hdnone,
      hdlow, hdok⟩ :=
    sd_duration_spec ps3 lps3 pps1 l3 hp3 (by rw [hkey1]; exact hdur)
  have hdip4 : dget pps4 "daysinpast" =
      vget (dget lps "polling") "daysinpast" :=
    (f4pps _ (by decide)).trans (hkey1 _)
  obtain ⟨ps5, lps5, pps5, e5, l5, p5, dip5, f5ps, f5lps, f5pps⟩ :=
    sd_opt3_spec "daysinpast" (.vint DEFAULT_DAYS_IN_PAST)
      (default_msg "logs.polling.daysinpast" "180") ps4 lps4 pps4 l4 p4
  have hcp5 : dget lps5 "checkpointDir" = dget lps "checkpointDir" := by
    rw [f5lps _ (by decide), f4lps _ (by decide), f3lps _ (by decide),
      f1lps _ (by decide)]
  obtain ⟨ps6, lps6, e6, l6, cp6, f6ps, f6lps⟩ :=
    sd_opt2_spec "logs" "checkpointDir" (.vstr DEFAULT_DIRECTORY)
      (default_msg "logs.checkpointDir" DEFAULT_DIRECTORY) ps5 lps5 l5
  have hrec6 : dget ps6 "recoverFromCheckpoint" = .vdict rps2 := by
    rw [f6ps _ (by decide), f5ps _ (by decide), f4ps _ (by decide),
      f3ps _ (by decide)]
    exact r2
  obtain ⟨ps7, rps7, e7, r7, en7, f7ps, f7rps⟩ :=
    sd_opt2_spec "recoverFromCheckpoint" "enabled" (.vbool false)
      (default_msg "recoverFromCheckpoint.enabled" "False") ps6 rps2 hrec6
  have hl7 : dget ps7 "logs" = .vdict lps6 := (f7ps _ (by decide)).trans l6
  have hp6 : dget lps6 "polling" = .vdict pps5 := (f6lps _ (by decide)).trans p5
  have hdip5 : ∃ d : Int, dget pps5 "daysinpast" = .vint d := by
    rw [dip5, hdip4]
    rcases hdip with h | ⟨m, h⟩
    · rw [h]; exact ⟨180, by simp [Value.isNull, DEFAULT_DAYS_IN_PAST]⟩
    · rw [h]
      exact ⟨m, by simp [Value.isNull]⟩
  obtain ⟨d, hd⟩ := hdip5
  obtain ⟨ps8, lps8, e8, l8, off8, f8ps, f8lps⟩ :=
    sd_offset_spec now ps7 lps6 pps5 d hl7 hp6 hd
  refine ⟨ps8, lps8, pps5, rps7,
    (if (dget lps1 "logDir").isNull then
      [default_msg "logs.logDir" DEFAULT_DIRECTORY] else []),
    ds2,
    (if (dget pps4 "daysinpast").isNull then
      [default_msg "logs.polling.daysinpast" "180"] else []),
    (if (dget lps5 "checkpointDir").isNull then
      [default_msg "logs.checkpointDir" DEFAULT_DIRECTORY] else []),
    (if (dget rps2 "enabled").isNull then
      [default_msg "recoverFromCheckpoint.enabled" "False"] else []),
    ?_, l8, ?_, ?_, ?_, ?_, ?_, ?_, ?_, ?_, ?_, ?_, ?_, ?_, ?_, ?_, ?_,
    ?_, ?_⟩
  · simp [set_config_defaults, e1, e2, sd_logdir, e3, e4, sd_daysinpast,
      e5, sd_checkpointdir, e6, sd_recover_enabled, e7, e8]
  · exact (f8lps _ (by decide)).trans hp6
  · rw [f8ps _ (by decide)]
    exact r7
  · rw [f8ps _ (by decide), f7ps _ (by decide), f6ps _ (by decide),
      f5ps _ (by decide), f4ps _ (by decide), f3ps _ (by decide),
      f2 _ (by decide), f1ps _ (by decide)]
  · rw [f8ps _ (by decide), f7ps _ (by decide), f6ps _ (by decide),
      f5ps _ (by decide), f4ps _ (by decide), f3ps _ (by decide),
      f2 _ (by decide), f1ps _ (by decide)]
  · rw [f8lps _ (by decide), f6lps _ (by decide), f5lps _ (by decide),
      f4lps _ (by decide), f3lps _ (by decide), f1lps _ (by decide)]
  · intro h
    have hnull : (dget lps1 "logDir").isNull = true := by
      rw [hld1, h]; rfl
    constructor
    · rw [f8lps _ (by decide), f6lps _ (by decide), f5lps _ (by decide),
        f4lps _ (by decide), ld3, if_pos hnull]
      rfl
    · rw [if_pos hnull]; rfl
  · intro h
    have hnull : ¬ (dget lps1 "logDir").isNull = true := by
      rw [hld1]
      simpa [Value.isNull_eq_true] using h
    constructor
    · rw [f8lps _ (by decide), f6lps _ (by decide), f5lps _ (by decide),
        f4lps _ (by decide), ld3, if_neg hnull, hld1]
    · rw [if_neg hnull]
  · intro h
    obtain ⟨h1, h2⟩ := hdnone (by rw [hkey1]; exact h)
    exact ⟨(f5pps _ (by decide)).trans h1, h2⟩
  · intro n h hlt
    obtain ⟨h1, h2⟩ := hdlow n (by rw [hkey1]; exact h) hlt
    exact ⟨(f5pps _ (by decide)).trans h1, h2⟩
  · intro n h h120
    obtain ⟨h1, h2⟩ := hdok n (by rw [hkey1]; exact h) h120
    exact ⟨(f5pps _ (by decide)).trans h1, h2⟩
  · intro h
    have hnull : (dget pps4 "daysinpast").isNull = true := by
      rw [hdip4, h]; rfl
    constructor
    · rw [dip5, if_pos hnull]
      rfl
    · rw [if_pos hnull]
  · intro h
    have hnull : ¬ (dget pps4 "daysinpast").isNull = true := by
      rw [hdip4]
      simpa [Value.isNull_eq_true] using h
    constructor
    · rw [dip5, if_neg hnull, hdip4]
    · rw [if_neg hnull]
  · intro h
    have hnull : (dget lps5 "checkpointDir").isNull = true := by
      rw [hcp5, h]; rfl
    constructor
    · rw [f8lps _ (by decide), cp6, if_pos hnull]
      rfl
    · rw [if_pos hnull]; rfl
  · intro h
    have hnull : ¬ (dget lps5 "checkpointDir").isNull = true := by
      rw [hcp5]
      simpa [Value.isNull_eq_true] using h
    constructor
    · rw [f8lps _ (by decide), cp6, if_neg hnull, hcp5]
    · rw [if_neg hnull]
  · intro h
    have hnull : (dget rps2 "enabled").isNull = true := by
      rw [hen2, h]; rfl
    constructor
    · rw [en7, if_pos hnull]
    · rw [if_pos hnull]
  · intro h
    have hnull : ¬ (dget rps2 "enabled").isNull = true := by
      rw [hen2]
      simpa [Value.isNull_eq_true] using h
    constructor
    · rw [en7, if_neg hnull, hen2]
    · rw [if_neg hnull]
  · exact ⟨d, hd, off8⟩

/-! ## Claim C1: lookup failure versus falsy values

The source of `get_value` tests `curr_value is None` after each
`curr_value.get(key)`.  A value that is present but *falsy without being
`None`* — Python `False` or the empty string — therefore does **not**
trigger the `ValueError`: a path ending at such a value returns it, and
descending *through* it raises `AttributeError` (no `.get` on a
non-dict), not the `ValueError`.  The failure fires exactly when some
`.get` along the path yields `None`, which happens both when the key is
absent and when the key is present but bound to `None`. -/

/-- Spec-level description of the amended C1: the descent reaches a dict
whose lookup of the next key yields `None` (absent key, or key bound to
`None`), at key `k`. -/
inductive NullHit : Value → List String → String → Prop
  | here (ps : List (String × Value)) (k : String) (ks : List String) :
      dget ps k = .vnone → NullHit (.vdict ps) (k :: ks) k
  | there (ps : List (String × Value)) (k : String) (ks : List String)
      (k' : String) : dget ps k ≠ .vnone → NullHit (dget ps k) ks k' →
      NullHit (.vdict ps) (k :: ks) k'

theorem nullHit_nil {c : Value} {k : String} : ¬ NullHit c [] k := by
  intro h; cases h

theorem get_value_loop_invalidKey_iff (keys : List String) (curr : Value)
    (k : String) :
    get_value_loop curr keys = .error (.invalidKey k) ↔ NullHit curr keys k := by
  induction keys generalizing curr with
  | nil =>
      simp only [get_value_loop]
      constructor
      · intro h; cases h
      · intro h; exact absurd h nullHit_nil
  | cons k0 ks ih =>
      cases curr with
      | vdict ps =>
          simp only [get_value_loop]
          by_cases hnull : dget ps k0 = Value.vnone
          · rw [if_pos (Value.isNull_eq_true.mpr hnull)]
            constructor
            · intro h
              have hk : k0 = k := by
                injection h with h'
                cases h'
                rfl
              subst hk
              exact NullHit.here ps k0 ks hnull
            · intro h
              cases h with
              | here _ _ _ _ => rfl
              | there _ _ _ _ hne _ => exact absurd hnull hne
          · rw [if_neg (by simpa [Value.isNull_eq_true] using hnull)]
            constructor
            · intro h
              exact NullHit.there ps k0 ks k hnull ((ih (dget ps k0)).mp h)
            · intro h
              cases h with
              | here _ _ _ hnone => exact absurd hnone hnull
              | there _ _ _ _ _ hrec => exact (ih (dget ps k0)).mpr hrec
      | vnone =>
          simp only [get_value_loop]
          constructor
          · intro h; cases h
          · intro h; cases h
      | vbool b =>
          simp only [get_value_loop]
          constructor
          · intro h; cases h
          · intro h; cases h
      | vint n =>
          simp only [get_value_loop]
          constructor
          · intro h; cases h
          · intro h; cases h
      | vstr s =>
          simp only [get_value_loop]
          constructor
          · intro h; cases h
          · intro h; cases h
      | vlist l =>
          simp only [get_value_loop]
          constructor
          · intro h; cases h
          · intro h; cases h

/-- C1 (counterexample): the claim says the `KeyNotFoundError` failure
"also fires when an intermediate value is present but falsy (e.g. `False`
or an empty string)".  On the code it does not: with the store set to
`{"a": False, "b": "", "c": {"x": False}}`, looking up `["a"]` returns
`False` and looking up `["b"]` returns `""`, with no error; and
descending *through* the falsy `False` at `["a", "y"]` raises
`AttributeError`, not the `ValueError` that plays `KeyNotFoundError`. -/
theorem C1_counterexample :
    get_value { config := .vdict [("a", .vbool false), ("b", .vstr ""),
          ("c", .vdict [("x", .vbool false)])], config_is_set := true }
        ["a"] = .ok (.vbool false) ∧
    get_value { config := .vdict [("a", .vbool false), ("b", .vstr ""),
          ("c", .vdict [("x", .vbool false)])], config_is_set := true }
        ["b"] = .ok (.vstr "") ∧
    get_value { config := .vdict [("a", .vbool false), ("b", .vstr ""),
          ("c", .vdict [("x", .vbool false)])], config_is_set := true }
        ["a", "y"] = .error .attributeError := by
  refine ⟨rfl, rfl, rfl⟩

/-- C1 (amended): after the store is set, `get_value` fails with the
`ValueError` naming key `k` exactly when the descent hits a dict whose
lookup of the next key `k` yields `None` — i.e. when that key is absent
*or* present but bound to `None`.  Falsy non-`None` values do not trigger
this failure; the conflation is "key absent" with "key bound to `None`". -/
theorem C1_lookup_failure_iff_null (s : ConfigState)
    (hset : s.config_is_set = true) (keys : List String) (k : String) :
    get_value s keys = .error (.invalidKey k) ↔ NullHit s.config keys k := by
  rw [get_value, if_pos hset]
  exact get_value_loop_invalidKey_iff keys s.config k

/-- Witness for C1: in a set store holding `{"p": None}` — key present,
bound to `None` — the lookup of `["p"]` fails with the `ValueError`, per
the amended characterization. -/
theorem C1_witness :
    ({ config := .vdict [("p", .vnone)], config_is_set := true } :
        ConfigState).config_is_set = true ∧
    (get_value { config := .vdict [("p", .vnone)], config_is_set := true }
        ["p"] = .error (.invalidKey "p") ↔
      NullHit (.vdict [("p", .vnone)]) ["p"] "p") :=
  ⟨rfl, C1_lookup_failure_iff_null
    { config := .vdict [("p", .vnone)], config_is_set := true } rfl ["p"] "p"⟩

/-! ## Claim C2: the store is write-once -/

/-- C2: the first `set_config` on the pristine state installs the given
configuration and succeeds; any `set_config` on a state whose flag is
already set fails with the "already set" `RuntimeError`.  In this
functional embedding an error produces no successor state, so the stored
configuration is unchanged by construction. -/
theorem C2_write_once (c : Value) :
    set_config initialState c = .ok { config := c, config_is_set := true } ∧
    ∀ (s : ConfigState), s.config_is_set = true →
      ∀ (c' : Value), set_config s c' = .error .alreadySet := by
  constructor
  · rfl
  · intro s hs c'
    rw [set_config, if_pos hs]

/-- Witness for C2: a second set, with a different argument, fails. -/
theorem C2_witness :
    set_config { config := .vint 1, config_is_set := true } (.vint 2) =
      .error .alreadySet :=
  (C2_write_once (.vint 1)).2 { config := .vint 1, config_is_set := true }
    rfl (.vint 2)

/-! ## Claim C3: reads before the store is set fail -/

/-- C3: for every key path, `get_value` on a state whose flag is unset —
in particular the initial state, before any `set_config` — fails with the
"not set" `RuntimeError` and returns no value. -/
theorem C3_get_before_set (s : ConfigState) (hs : s.config_is_set = false)
    (keys : List String) : get_value s keys = .error .notSet := by
  rw [get_value, hs]
  rfl

/-- Witness for C3: a concrete lookup on the initial state fails. -/
theorem C3_witness :
    get_value initialState ["logs", "logDir"] = .error .notSet :=
  C3_get_before_set initialState rfl ["logs", "logDir"]

/-! ## Claim C10: the empty path returns the whole configuration -/

/-- C10: after `set_config` has installed configuration `c`, `get_value`
with the empty key list performs zero descents and returns `c` itself. -/
theorem C10_empty_path (c : Value) (s' : ConfigState)
    (h : set_config initialState c = .ok s') :
    get_value s' [] = .ok c := by
  have hs : s' = { config := c, config_is_set := true } := by
    rw [set_config] at h
    simp [initialState] at h
    exact h.symm
  subst hs
  rfl

/-- Witness for C10: the empty lookup on a freshly set store returns the
installed configuration. -/
theorem C10_witness :
    get_value { config := .vdict [("k", .vint 7)], config_is_set := true }
        [] = .ok (.vdict [("k", .vint 7)]) :=
  C10_empty_path (.vdict [("k", .vint 7)])
    { config := .vdict [("k", .vint 7)], config_is_set := true } rfl

/-! ## Inversion of a successful validation

From `validate_config c = .ok ()` we recover the dict structure the
schema guarantees; these are the shape facts `set_config_defaults` and
the accessors rely on. -/

theorem validate_ok_elim {c : Value} (h : validate_config c = .ok ()) :
    ∃ ps, c = .vdict ps ∧ collectViolations ps = [] := by
  cases c with
  | vdict ps =>
      refine ⟨ps, rfl, ?_⟩
      by_contra hne
      simp only [validate_config, if_neg hne] at h
      cases h
  | vnone => cases h
  | vbool b => cases h
  | vint n => cases h
  | vstr s => cases h
  | vlist l => cases h

theorem collectViolations_nil_elim {ps : List (String × Value)}
    (h : collectViolations ps = []) :
    vioDuoclient (dget ps "duoclient") = [] ∧
    vioLogs (dget ps "logs") = [] ∧
    vioTransport (dget ps "transport") = [] ∧
    vioRecover (dget ps "recoverFromCheckpoint") = [] :=
  by simpa [collectViolations, List.append_eq_nil] using h

theorem vioOptStr_nil_elim {p : String} {v : Value}
    (h : vioOptStr p v = []) : v = .vnone ∨ ∃ s, v = .vstr s := by
  cases v
  case vnone => exact Or.inl rfl
  case vstr s => exact Or.inr ⟨s, rfl⟩
  all_goals simp [vioOptStr] at h

theorem vioReqStr_nil_elim {p : String} {v : Value}
    (h : vioReqStr p v = []) : ∃ s, v = .vstr s := by
  cases v
  case vstr s => exact ⟨s, rfl⟩
  all_goals simp [vioReqStr] at h

theorem vioDuration_nil_elim {v : Value} (h : vioDuration v = []) :
    v = .vnone ∨ ∃ n : Int, v = .vint n := by
  cases v
  case vnone => exact Or.inl rfl
  case vint n => exact Or.inr ⟨n, rfl⟩
  all_goals simp [vioDuration] at h

theorem vioDaysinpast_nil_elim {v : Value} (h : vioDaysinpast v = []) :
    v = .vnone ∨ ∃ m : Int, v = .vint m := by
  cases v
  case vnone => exact Or.inl rfl
  case vint m => exact Or.inr ⟨m, rfl⟩
  all_goals simp [vioDaysinpast] at h

theorem vioPolling_nil_elim {v : Value} (h : vioPolling v = []) :
    v = .vnone ∨ ∃ pps, v = .vdict pps ∧
      vioDuration (dget pps "duration") = [] ∧
      vioDaysinpast (dget pps "daysinpast") = [] := by
  cases v
  case vnone => exact Or.inl rfl
  case vdict pps =>
      simp only [vioPolling, List.append_eq_nil] at h
      exact Or.inr ⟨pps, rfl, h.1, h.2⟩
  all_goals simp [vioPolling] at h

theorem vioRecover_nil_elim {v : Value} (h : vioRecover v = []) :
    v = .vnone ∨ ∃ rps, v = .vdict rps := by
  cases v
  case vnone => exact Or.inl rfl
  case vdict rps => exact Or.inr ⟨rps, rfl⟩
  all_goals simp [vioRecover] at h

theorem vioLogs_nil_elim {v : Value} (h : vioLogs v = []) :
    ∃ lps, v = .vdict lps ∧
      vioOptStr "logs.logDir" (dget lps "logDir") = [] ∧
      vioEndpoints (dget lps "endpoints") = [] ∧
      vioPolling (dget lps "polling") = [] ∧
      vioOptStr "logs.checkpointDir" (dget lps "checkpointDir") = [] := by
  cases v
  case vdict lps =>
      simp only [vioLogs, List.append_eq_nil] at h
      obtain ⟨⟨⟨h1, h2⟩, h3⟩, h4⟩ := h
      exact ⟨lps, rfl, h1, h2, h3, h4⟩
  all_goals simp [vioLogs] at h

theorem vioDuoclient_nil_elim {v : Value} (h : vioDuoclient v = []) :
    ∃ dps, v = .vdict dps ∧
      (∃ s, dget dps "skey" = .vstr s) ∧
      (∃ s, dget dps "ikey" = .vstr s) ∧
      (∃ s, dget dps "host" = .vstr s) := by
  cases v
  case vdict dps =>
      simp only [vioDuoclient, List.append_eq_nil] at h
      obtain ⟨⟨h1, h2⟩, h3⟩ := h
      exact ⟨dps, rfl, vioReqStr_nil_elim h1, vioReqStr_nil_elim h2,
        vioReqStr_nil_elim h3⟩
  all_goals simp [vioDuoclient] at h

theorem vioEndpoints_nil_elim {v : Value} (h : vioEndpoints v = []) :
    ∃ eps, v = .vdict eps ∧ dget eps "enabled" ≠ .vnone := by
  cases v
  case vdict eps =>
      refine ⟨eps, rfl, ?_⟩
      intro hnone
      rw [vioEndpoints, hnone] at h
      simp [vioEnabled] at h
  all_goals simp [vioEndpoints] at h

/-- The combined shape of a schema-valid configuration, as needed by
`defaults_master` and by the accessor claims. -/
theorem valid_shape {c : Value} (h : validate_config c = .ok ()) :
    ∃ ps lps, c = .vdict ps ∧ dget ps "logs" = .vdict lps ∧
      (dget lps "polling" = .vnone ∨
        ∃ pps, dget lps "polling" = .vdict pps) ∧
      (dget ps "recoverFromCheckpoint" = .vnone ∨
        ∃ rps, dget ps "recoverFromCheckpoint" = .vdict rps) ∧
      (vget (dget lps "polling") "duration" = .vnone ∨
        ∃ n : Int, vget (dget lps "polling") "duration" = .vint n) ∧
      (vget (dget lps "polling") "daysinpast" = .vnone ∨
        ∃ m : Int, vget (dget lps "polling") "daysinpast" = .vint m) ∧
      (∃ dps, dget ps "duoclient" = .vdict dps ∧
        (∃ s, dget dps "skey" = .vstr s) ∧
        (∃ s, dget dps "ikey" = .vstr s) ∧
        (∃ s, dget dps "host" = .vstr s)) ∧
      (∃ eps, dget lps "endpoints" = .vdict eps ∧
        dget eps "enabled" ≠ .vnone) := by
  obtain ⟨ps, rfl, hnil⟩ := validate_ok_elim h
  obtain ⟨hduo, hlogs, htrans, hrec⟩ := collectViolations_nil_elim hnil
  obtain ⟨lps, hl, hld, hep, hpol, hcp⟩ := vioLogs_nil_elim hlogs
  refine ⟨ps, lps, rfl, hl, ?_, ?_, ?_, ?_, ?_, ?_⟩
  · rcases vioPolling_nil_elim hpol with h0 | ⟨pps, h0, _, _⟩
    · exact Or.inl h0
    · exact Or.inr ⟨pps, h0⟩
  · exact vioRecover_nil_elim hrec
  · rcases vioPolling_nil_elim hpol with h0 | ⟨pps, h0, hdur, _⟩
    · rw [h0]; exact Or.inl rfl
    · rw [h0]
      exact vioDuration_nil_elim hdur
  · rcases vioPolling_nil_elim hpol with h0 | ⟨pps, h0, _, hdip⟩
    · rw [h0]; exact Or.inl rfl
    · rw [h0]
      exact vioDaysinpast_nil_elim hdip
  · exact vioDuoclient_nil_elim hduo
  · exact vioEndpoints_nil_elim hep

/-! ## Claims C6 and C7: the validator -/

theorem mem_collectViolations_of_mem_transport (ps : List (String × Value))
    (m : String) (hm : m ∈ vioTransport (dget ps "transport")) :
    m ∈ collectViolations ps := by
  unfold collectViolations
  simp only [List.mem_append]
  tauto

/-- C6: for every configuration whose `transport.protocol` is `"TCPSSL"`
while `certFileDir` or `certFileName` is missing from the transport
section, validation fails and the reported violations name the missing
dependency; and the protocol check imposes no such requirement on `"TCP"`
or `"UDP"` over the very same transport section. -/
theorem C6_tcpssl_dependencies (ps tps : List (String × Value))
    (ht : dget ps "transport" = .vdict tps)
    (hp : dget tps "protocol" = .vstr "TCPSSL")
    (hmiss : dget tps "certFileDir" = .vnone ∨
      dget tps "certFileName" = .vnone) :
    (∃ errs, validate_config (.vdict ps) = .error errs ∧
      (dget tps "certFileDir" = .vnone →
        "transport.protocol: field certFileDir is required when protocol is TCPSSL"
          ∈ errs) ∧
      (dget tps "certFileName" = .vnone →
        "transport.protocol: field certFileName is required when protocol is TCPSSL"
          ∈ errs)) ∧
    vioProtocol tps (.vstr "TCP") = [] ∧ vioProtocol tps (.vstr "UDP") = [] := by
  have hproto : vioProtocol tps (.vstr "TCPSSL") =
      (if (dget tps "certFileDir").isNull then
        ["transport.protocol: field certFileDir is required when protocol is TCPSSL"]
       else []) ++
      (if (dget tps "certFileName").isNull then
        ["transport.protocol: field certFileName is required when protocol is TCPSSL"]
       else []) := by
    simp [vioProtocol]
  have hmemT : ∀ m, m ∈ vioProtocol tps (dget tps "protocol") →
      m ∈ collectViolations ps := by
    intro m hm
    apply mem_collectViolations_of_mem_transport
    rw [ht]
    unfold vioTransport
    simp only [List.mem_append]
    tauto
  have hdir : dget tps "certFileDir" = .vnone →
      "transport.protocol: field certFileDir is required when protocol is TCPSSL"
        ∈ collectViolations ps := by
    intro h
    apply hmemT
    rw [hp, hproto, h]
    simp [Value.isNull]
  have hname : dget tps "certFileName" = .vnone →
      "transport.protocol: field certFileName is required when protocol is TCPSSL"
        ∈ collectViolations ps := by
    intro h
    apply hmemT
    rw [hp, hproto, h]
    simp [Value.isNull]
  have hne : collectViolations ps ≠ [] := by
    rcases hmiss with h | h
    · exact List.ne_nil_of_mem (hdir h)
    · exact List.ne_nil_of_mem (hname h)
  refine ⟨⟨collectViolations ps, ?_, hdir, hname⟩, ?_, ?_⟩
  · simp only [validate_config]
    rw [if_neg hne]
  · simp [vioProtocol]
  · simp [vioProtocol]

/-- Witness for C6: a transport section with protocol `TCPSSL`, a host
and a port but no `certFileDir` fails validation with a violation naming
`certFileDir`. -/
theorem C6_witness :
    (∃ errs, validate_config (.vdict [("transport", .vdict
        [("protocol", .vstr "TCPSSL"), ("host", .vstr "h"),
         ("port", .vint 514)])]) = .error errs ∧
      (dget [("protocol", .vstr "TCPSSL"), ("host", .vstr "h"),
         ("port", .vint 514)] "certFileDir" = .vnone →
        "transport.protocol: field certFileDir is required when protocol is TCPSSL"
          ∈ errs) ∧
      (dget [("protocol", .vstr "TCPSSL"), ("host", .vstr "h"),
         ("port", .vint 514)] "certFileName" = .vnone →
        "transport.protocol: field certFileName is required when protocol is TCPSSL"
          ∈ errs)) ∧
    vioProtocol [("protocol", .vstr "TCPSSL"), ("host", .vstr "h"),
      ("port", .vint 514)] (.vstr "TCP") = [] ∧
    vioProtocol [("protocol", .vstr "TCPSSL"), ("host", .vstr "h"),
      ("port", .vint 514)] (.vstr "UDP") = [] :=
  C6_tcpssl_dependencies _ _ rfl rfl (Or.inl rfl)

/-- C7: when validation fails, the raised error carries the full
collected violation list: any violation of the `duoclient` section and
any violation of the `transport` section — two independent violations
from different parts of the schema — both appear in the single raised
error, which is exactly the whole collection; the validator does not stop
at the first violation. -/
theorem C7_error_carries_all_violations (ps : List (String × Value))
    (v1 v2 : String) (h1 : v1 ∈ vioDuoclient (dget ps "duoclient"))
    (h2 : v2 ∈ vioTransport (dget ps "transport")) :
    ∃ errs, validate_config (.vdict ps) = .error errs ∧
      errs = collectViolations ps ∧ v1 ∈ errs ∧ v2 ∈ errs := by
  have hm1 : v1 ∈ collectViolations ps := by
    unfold collectViolations
    simp only [List.mem_append]
    tauto
  have hm2 : v2 ∈ collectViolations ps :=
    mem_collectViolations_of_mem_transport ps v2 h2
  have hne : collectViolations ps ≠ [] := List.ne_nil_of_mem hm1
  refine ⟨collectViolations ps, ?_, rfl, hm1, hm2⟩
  simp only [validate_config]
  rw [if_neg hne]

/-- Witness for C7: the empty configuration violates `duoclient`, `logs`
and `transport` at once; the raised error contains both the `duoclient`
violation and the `transport` violation (the latter is not the first
entry of the collection). -/
theorem C7_witness :
    ∃ errs, validate_config (.vdict []) = .error errs ∧
      errs = collectViolations [] ∧
      "duoclient: required field" ∈ errs ∧
      "transport: required field" ∈ errs :=
  C7_error_carries_all_violations [] "duoclient: required field"
    "transport: required field" (by simp [dget, vioDuoclient])
    (by simp [dget, vioTransport])

/-! ## Claim C4: the polling-duration floor -/

theorem notin_of_ne {m' x : String} {l : List String}
    (hl : l = [] ∨ l = [m']) (hx : x ≠ m') : x ∉ l := by
  rcases hl with h | h <;> subst h
  · simp
  · simp [hx]

/-- C4: on every schema-valid configuration, `set_config_defaults`
leaves `logs.polling.duration` at least `120`: an unset duration becomes
`120` with the "no value given" line (and no "too low" line), a duration
below `120` is clamped to `120` with the distinct "too low" line (and no
"no value given" line for it), and a duration at least `120` is kept. -/
theorem C4_duration_minimum (now : Int) (c : Value)
    (hval : validate_config c = .ok ()) :
    ∃ r ds, set_config_defaults now c = some (r, ds) ∧
      (∃ m : Int, vget (vget (vget r "logs") "polling") "duration" =
        .vint m ∧ 120 ≤ m) ∧
      (vget (vget (vget c "logs") "polling") "duration" = .vnone →
        vget (vget (vget r "logs") "polling") "duration" = .vint 120 ∧
        default_msg "logs.polling.duration" "120" ∈ ds ∧ too_low_msg ∉ ds) ∧
      (∀ n : Int,
        vget (vget (vget c "logs") "polling") "duration" = .vint n →
        n < 120 →
        vget (vget (vget r "logs") "polling") "duration" = .vint 120 ∧
        too_low_msg ∈ ds ∧
        default_msg "logs.polling.duration" "120" ∉ ds) ∧
      (∀ n : Int,
        vget (vget (vget c "logs") "polling") "duration" = .vint n →
        120 ≤ n →
        vget (vget (vget r "logs") "polling") "duration" = .vint n) := by
  obtain ⟨ps, lps, rfl, hl, hpol, hrec, hdur, hdip, _, _⟩ := valid_shape hval
  obtain ⟨ps', lps', pps', rps', ds1, ds2, ds3, ds4, ds5, meq, m2, m3, m4,
    m5, m6, m7, m8, m9, m10, m11, m12, m13, m14, m15, m16, m17, m18, m19⟩ :=
    defaults_master now ps lps hl hpol hrec hdur hdip
  have hacc : vget (vget (vget (Value.vdict ps') "logs") "polling")
      "duration" = dget pps' "duration" := by
    simp [vget, m2, m3]
  have hcacc : vget (vget (vget (Value.vdict ps) "logs") "polling")
      "duration" = vget (dget lps "polling") "duration" := by
    simp [vget, hl]
  have hds1 : ds1 = [] ∨ ds1 = [default_msg "logs.logDir" "/tmp"] := by
    by_cases h0 : dget lps "logDir" = .vnone
    · exact Or.inr (m8 h0).2
    · exact Or.inl (m9 h0).2
  have hds3 : ds3 = [] ∨
      ds3 = [default_msg "logs.polling.daysinpast" "180"] := by
    by_cases h0 : vget (dget lps "polling") "daysinpast" = .vnone
    · exact Or.inr (m13 h0).2
    · exact Or.inl (m14 h0).2
  have hds4 : ds4 = [] ∨
      ds4 = [default_msg "logs.checkpointDir" "/tmp"] := by
    by_cases h0 : dget lps "checkpointDir" = .vnone
    · exact Or.inr (m15 h0).2
    · exact Or.inl (m16 h0).2
  have hds5 : ds5 = [] ∨
      ds5 = [default_msg "recoverFromCheckpoint.enabled" "False"] := by
    by_cases h0 : vget (dget ps "recoverFromCheckpoint") "enabled" = .vnone
    · exact Or.inr (m17 h0).2
    · exact Or.inl (m18 h0).2
  have hu1 : default_msg "logs.polling.duration" "120" ∉ ds1 :=
    notin_of_ne hds1 (by decide)
  have hu3 : default_msg "logs.polling.duration" "120" ∉ ds3 :=
    notin_of_ne hds3 (by decide)
  have hu4 : default_msg "logs.polling.duration" "120" ∉ ds4 :=
    notin_of_ne hds4 (by decide)
  have hu5 : default_msg "logs.polling.duration" "120" ∉ ds5 :=
    notin_of_ne hds5 (by decide)
  have ht1 : too_low_msg ∉ ds1 := notin_of_ne hds1 (by decide)
  have ht3 : too_low_msg ∉ ds3 := notin_of_ne hds3 (by decide)
  have ht4 : too_low_msg ∉ ds4 := notin_of_ne hds4 (by decide)
  have ht5 : too_low_msg ∉ ds5 := notin_of_ne hds5 (by decide)
  refine ⟨.vdict ps', ds1 ++ ds2 ++ ds3 ++ ds4 ++ ds5, meq, ?_, ?_, ?_, ?_⟩
  · rcases hdur with hnone | ⟨n, hint⟩
    · exact ⟨120, by rw [hacc]; exact (m10 hnone).1, by norm_num⟩
    · by_cases hlt : n < 120
      · exact ⟨120, by rw [hacc]; exact (m11 n hint hlt).1, by norm_num⟩
      · exact ⟨n, by rw [hacc]; exact (m12 n hint (by omega)).1, by omega⟩
  · intro h0
    rw [hcacc] at h0
    obtain ⟨hd, hds2⟩ := m10 h0
    refine ⟨by rw [hacc]; exact hd, ?_, ?_⟩
    · simp [List.mem_append, hds2]
    · simp only [List.mem_append]
      rintro ((((hm | hm) | hm) | hm) | hm)
      · exact ht1 hm
      · rw [hds2] at hm
        simp at hm
        exact absurd hm (by decide)
      · exact ht3 hm
      · exact ht4 hm
      · exact ht5 hm
  · intro n h0 hlt
    rw [hcacc] at h0
    obtain ⟨hd, hds2⟩ := m11 n h0 hlt
    refine ⟨by rw [hacc]; exact hd, ?_, ?_⟩
    · simp [List.mem_append, hds2]
    · simp only [List.mem_append]
      rintro ((((hm | hm) | hm) | hm) | hm)
      · exact hu1 hm
      · rw [hds2] at hm
        simp at hm
        exact absurd hm (by decide)
      · exact hu3 hm
      · exact hu4 hm
      · exact hu5 hm
  · intro n h0 h120
    rw [hcacc] at h0
    rw [hacc]
    exact (m12 n h0 h120).1

/-- Witness for C4: the spec's §8 example config — schema-valid, with no
`logs.polling` section at all — gets duration `120` and the "no value
given" diagnostic. -/
theorem C4_witness :
    ∃ r ds, set_config_defaults 1000000
        (.vdict [("duoclient", .vdict [("ikey", .vstr "a"),
            ("skey", .vstr "b"), ("host", .vstr "h")]),
          ("logs", .vdict [("endpoints", .vdict [("enabled", .vstr "auth")])]),
          ("transport", .vdict [("protocol", .vstr "UDP"),
            ("host", .vstr "x"), ("port", .vint 514)])]) = some (r, ds) ∧
      (∃ m : Int, vget (vget (vget r "logs") "polling") "duration" =
        .vint m ∧ 120 ≤ m) ∧
      (vget (vget (vget (Value.vdict [("duoclient", .vdict [("ikey", .vstr "a"),
            ("skey", .vstr "b"), ("host", .vstr "h")]),
          ("logs", .vdict [("endpoints", .vdict [("enabled", .vstr "auth")])]),
          ("transport", .vdict [("protocol", .vstr "UDP"),
            ("host", .vstr "x"), ("port", .vint 514)])]) "logs") "polling")
          "duration" = .vnone →
        vget (vget (vget r "logs") "polling") "duration" = .vint 120 ∧
        default_msg "logs.polling.duration" "120" ∈ ds ∧ too_low_msg ∉ ds) ∧
      (∀ n : Int,
        vget (vget (vget (Value.vdict [("duoclient", .vdict [("ikey", .vstr "a"),
            ("skey", .vstr "b"), ("host", .vstr "h")]),
          ("logs", .vdict [("endpoints", .vdict [("enabled", .vstr "auth")])]),
          ("transport", .vdict [("protocol", .vstr "UDP"),
            ("host", .vstr "x"), ("port", .vint 514)])]) "logs") "polling")
          "duration" = .vint n → n < 120 →
        vget (vget (vget r "logs") "polling") "duration" = .vint 120 ∧
        too_low_msg ∈ ds ∧
        default_msg "logs.polling.duration" "120" ∉ ds) ∧
      (∀ n : Int,
        vget (vget (vget (Value.vdict [("duoclient", .vdict [("ikey", .vstr "a"),
            ("skey", .vstr "b"), ("host", .vstr "h")]),
          ("logs", .vdict [("endpoints", .vdict [("enabled", .vstr "auth")])]),
          ("transport", .vdict [("protocol", .vstr "UDP"),
            ("host", .vstr "x"), ("port", .vint 514)])]) "logs") "polling")
          "duration" = .vint n → 120 ≤ n →
        vget (vget (vget r "logs") "polling") "duration" = .vint n) :=
  C4_duration_minimum 1000000 _ rfl

/-! ## Claim C5: the derived `logs.offset`

The source computes
`int((datetime.utcnow() - timedelta(days=days_in_past)).timestamp())`
and writes it to `logs.offset` unconditionally, after defaulting; with
the call-time epoch seconds abstracted as `now`, that value is
`now - daysinpast * 86400`.  The write happens whatever `logs.offset`
held before the call — the value is derived, never user-specified. -/

/-- C5: on every schema-valid configuration the resulting `logs.offset`
is exactly `now - d * 86400` where `d` is the effective
`logs.polling.daysinpast` (the user's value when present, `180` when
unset) — i.e. the Unix timestamp, in seconds, of `now` minus
`daysinpast` days. -/
theorem C5_offset_derived (now : Int) (c : Value)
    (hval : validate_config c = .ok ()) :
    ∃ r ds, set_config_defaults now c = some (r, ds) ∧
      ∃ d : Int,
        vget (vget (vget r "logs") "polling") "daysinpast" = .vint d ∧
        vget (vget r "logs") "offset" = .vint (now - d * 86400) ∧
        (∀ d0 : Int,
          vget (vget (vget c "logs") "polling") "daysinpast" = .vint d0 →
          d = d0) ∧
        (vget (vget (vget c "logs") "polling") "daysinpast" = .vnone →
          d = 180) := by
  obtain ⟨ps, lps, rfl, hl, hpol, hrec, hdur, hdip, _, _⟩ := valid_shape hval
  obtain ⟨ps', lps', pps', rps', ds1, ds2, ds3, ds4, ds5, meq, m2, m3, m4,
    m5, m6, m7, m8, m9, m10, m11, m12, m13, m14, m15, m16, m17, m18, m19⟩ :=
    defaults_master now ps lps hl hpol hrec hdur hdip
  obtain ⟨d, hd, hoff⟩ := m19
  have hacc : vget (vget (vget (Value.vdict ps') "logs") "polling")
      "daysinpast" = dget pps' "daysinpast" := by
    simp [vget, m2, m3]
  have hoacc : vget (vget (Value.vdict ps') "logs") "offset" =
      dget lps' "offset" := by
    simp [vget, m2]
  have hcacc : vget (vget (vget (Value.vdict ps) "logs") "polling")
      "daysinpast" = vget (dget lps "polling") "daysinpast" := by
    simp [vget, hl]
  refine ⟨.vdict ps', ds1 ++ ds2 ++ ds3 ++ ds4 ++ ds5, meq, d,
    by rw [hacc]; exact hd, by rw [hoacc]; exact hoff, ?_, ?_⟩
  · intro d0 h0
    rw [hcacc] at h0
    have := (m14 (by rw [h0]; simp)).1
    rw [h0] at this
    rw [hd] at this
    injection this
  · intro h0
    rw [hcacc] at h0
    have := (m13 h0).1
    rw [hd] at this
    injection this

/-- Witness for C5: on the spec's §8 example (no `daysinpast` given) the
offset is `1000000 - 180 * 86400`. -/
theorem C5_witness :
    ∃ r ds, set_config_defaults 1000000
        (.vdict [("duoclient", .vdict [("ikey", .vstr "a"),
            ("skey", .vstr "b"), ("host", .vstr "h")]),
          ("logs", .vdict [("endpoints", .vdict [("enabled", .vstr "auth")])]),
          ("transport", .vdict [("protocol", .vstr "TCP"),
            ("host", .vstr "x"), ("port", .vint 514)])]) = some (r, ds) ∧
      ∃ d : Int,
        vget (vget (vget r "logs") "polling") "daysinpast" = .vint d ∧
        vget (vget r "logs") "offset" = .vint (1000000 - d * 86400) ∧
        (∀ d0 : Int,
          vget (vget (vget (Value.vdict [("duoclient", .vdict
              [("ikey", .vstr "a"), ("skey", .vstr "b"),
               ("host", .vstr "h")]),
            ("logs", .vdict [("endpoints", .vdict
              [("enabled", .vstr "auth")])]),
            ("transport", .vdict [("protocol", .vstr "TCP"),
              ("host", .vstr "x"), ("port", .vint 514)])]) "logs")
            "polling") "daysinpast" = .vint d0 → d = d0) ∧
        (vget (vget (vget (Value.vdict [("duoclient", .vdict
              [("ikey", .vstr "a"), ("skey", .vstr "b"),
               ("host", .vstr "h")]),
            ("logs", .vdict [("endpoints", .vdict
              [("enabled", .vstr "auth")])]),
            ("transport", .vdict [("protocol", .vstr "TCP"),
              ("host", .vstr "x"), ("port", .vint 514)])]) "logs")
            "polling") "daysinpast" = .vnone → d = 180) :=
  C5_offset_derived 1000000 _ rfl

/-! ## Claim C9: the accessors cannot fail after defaulting -/

/-- One descent step of `get_value` through a dict whose lookup does not
yield `None`. -/
theorem get_value_loop_cons {ps : List (String × Value)} {k : String}
    {v : Value} (h : dget ps k = v) (hv : v ≠ .vnone) (ks : List String) :
    get_value_loop (.vdict ps) (k :: ks) = get_value_loop v ks := by
  simp only [get_value_loop, h]
  rw [if_neg (by simpa [Value.isNull_eq_true] using hv)]

/-- The key paths read by the convenience accessor classmethods of
`Config` (`get_enabled_endpoints` … `get_log_directory`), plus the
derived `logs.offset`. -/
def accessor_paths : List (List String) :=
  [["logs", "logDir"], ["logs", "endpoints", "enabled"],
   ["logs", "polling", "duration"], ["logs", "polling", "daysinpast"],
   ["logs", "checkpointDir"], ["logs", "offset"],
   ["recoverFromCheckpoint", "enabled"], ["duoclient", "ikey"],
   ["duoclient", "skey"], ["duoclient", "host"]]

/-- C9: after `set_config_defaults` on any schema-valid configuration,
every leaf path used by the convenience accessors holds a non-`None`
value, so once the result is installed in the store, `get_value` on each
of those paths returns a value and raises no error. -/
theorem C9_accessors_total (now : Int) (c : Value)
    (hval : validate_config c = .ok ()) :
    ∃ r ds, set_config_defaults now c = some (r, ds) ∧
      ∀ p ∈ accessor_paths, ∃ v,
        get_value { config := r, config_is_set := true } p = .ok v ∧
        v ≠ .vnone := by
  obtain ⟨ps, lps, rfl, hl, hpol, hrec, hdur, hdip,
    ⟨dps, hdc, ⟨sk, hsk⟩, ⟨ik, hik⟩, ⟨ho, hho⟩⟩, ⟨eps, hep, henb⟩⟩ :=
    valid_shape hval
  obtain ⟨ps', lps', pps', rps', ds1, ds2, ds3, ds4, ds5, meq, m2, m3, m4,
    m5, m6, m7, m8, m9, m10, m11, m12, m13, m14, m15, m16, m17, m18, m19⟩ :=
    defaults_master now ps lps hl hpol hrec hdur hdip
  obtain ⟨d, hd, hoff⟩ := m19
  have rd : dget ps' "duoclient" = .vdict dps := m5.trans hdc
  have rep : dget lps' "endpoints" = .vdict eps := m7.trans hep
  have hld' : dget lps' "logDir" ≠ .vnone := by
    by_cases h0 : dget lps "logDir" = .vnone
    · rw [(m8 h0).1]; simp
    · rw [(m9 h0).1]; exact h0
  have hcp' : dget lps' "checkpointDir" ≠ .vnone := by
    by_cases h0 : dget lps "checkpointDir" = .vnone
    · rw [(m15 h0).1]; simp
    · rw [(m16 h0).1]; exact h0
  have hdur' : dget pps' "duration" ≠ .vnone := by
    rcases hdur with h0 | ⟨n, h0⟩
    · rw [(m10 h0).1]; simp
    · by_cases hlt : n < 120
      · rw [(m11 n h0 hlt).1]; simp
      · rw [(m12 n h0 (by omega)).1]; simp
  have hen' : dget rps' "enabled" ≠ .vnone := by
    by_cases h0 : vget (dget ps "recoverFromCheckpoint") "enabled" = .vnone
    · rw [(m17 h0).1]; simp
    · rw [(m18 h0).1]; exact h0
  refine ⟨.vdict ps', ds1 ++ ds2 ++ ds3 ++ ds4 ++ ds5, meq, ?_⟩
  intro p hp
  have hset : get_value
      { config := Value.vdict ps', config_is_set := true } p =
      get_value_loop (.vdict ps') p := rfl
  simp only [accessor_paths, List.mem_cons, List.not_mem_nil, or_false]
    at hp
  rcases hp with rfl | rfl | rfl | rfl | rfl | rfl | rfl | rfl | rfl | rfl
  · refine ⟨dget lps' "logDir", ?_, hld'⟩
    rw [hset, get_value_loop_cons m2 (by simp) _,
      get_value_loop_cons rfl hld' _]
    rfl
  · refine ⟨dget eps "enabled", ?_, henb⟩
    rw [hset, get_value_loop_cons m2 (by simp) _,
      get_value_loop_cons rep (by simp) _,
      get_value_loop_cons rfl henb _]
    rfl
  · refine ⟨dget pps' "duration", ?_, hdur'⟩
    rw [hset, get_value_loop_cons m2 (by simp) _,
      get_value_loop_cons m3 (by simp) _,
      get_value_loop_cons rfl hdur' _]
    rfl
  · refine ⟨.vint d, ?_, by simp⟩
    rw [hset, get_value_loop_cons m2 (by simp) _,
      get_value_loop_cons m3 (by simp) _,
      get_value_loop_cons hd (by simp) _]
    rfl
  · refine ⟨dget lps' "checkpointDir", ?_, hcp'⟩
    rw [hset, get_value_loop_cons m2 (by simp) _,
      get_value_loop_cons rfl hcp' _]
    rfl
  · refine ⟨.vint (now - d * 86400), ?_, by simp⟩
    rw [hset, get_value_loop_cons m2 (by simp) _,
      get_value_loop_cons hoff (by simp) _]
    rfl
  · refine ⟨dget rps' "enabled", ?_, hen'⟩
    rw [hset, get_value_loop_cons m4 (by simp) _,
      get_value_loop_cons rfl hen' _]
    rfl
  · refine ⟨.vstr ik, ?_, by simp⟩
    rw [hset, get_value_loop_cons rd (by simp) _,
      get_value_loop_cons hik (by simp) _]
    rfl
  · refine ⟨.vstr sk, ?_, by simp⟩
    rw [hset, get_value_loop_cons rd (by simp) _,
      get_value_loop_cons hsk (by simp) _]
    rfl
  · refine ⟨.vstr ho, ?_, by simp⟩
    rw [hset, get_value_loop_cons rd (by simp) _,
      get_value_loop_cons hho (by simp) _]
    rfl

/-- Witness for C9: the spec's §8 example config, defaulted, answers all
ten accessor paths. -/
theorem C9_witness :
    ∃ r ds, set_config_defaults 1000000
        (.vdict [("duoclient", .vdict [("ikey", .vstr "a"),
            ("skey", .vstr "b"), ("host", .vstr "h")]),
          ("logs", .vdict [("endpoints", .vdict [("enabled", .vstr "auth")])]),
          ("transport", .vdict [("protocol", .vstr "TCPSSL"),
            ("host", .vstr "x"), ("port", .vint 514),
            ("certFileDir", .vstr "/certs"),
            ("certFileName", .vstr "cert.pem")])]) = some (r, ds) ∧
      ∀ p ∈ accessor_paths, ∃ v,
        get_value { config := r, config_is_set := true } p = .ok v ∧
        v ≠ .vnone :=
  C9_accessors_total 1000000 _ rfl

/-! ## Claim C8: idempotence on fully-specified configurations

Two features of the source refute the claim as stated.  First, the
schema places no lower bound on `logs.polling.duration`, so a
fully-specified, schema-valid configuration may carry a duration below
`120`; on such a configuration `set_config_defaults` emits the "too low"
diagnostic and rewrites the field.  Second, the final block writes the
derived `logs.offset` unconditionally, so the configuration always gains
that field.  What does hold: when every optional field is present and
the duration is at least `120`, no diagnostic is emitted and every
schema field is preserved — the derived `logs.offset` is the only
change. -/

/-- C8 (counterexample): a schema-valid configuration in which *every*
optional field of the schema is specified, with `duration = 50`:
`set_config_defaults` emits the "too low" diagnostic and rewrites
`logs.polling.duration` to `120`, so it does alter a field and does emit
output. -/
theorem C8_counterexample :
    validate_config (.vdict [("duoclient", .vdict [("skey", .vstr "s"),
        ("ikey", .vstr "i"), ("host", .vstr "h")]),
      ("logs", .vdict [("logDir", .vstr "/var/log"),
        ("endpoints", .vdict [("enabled", .vstr "auth")]),
        ("polling", .vdict [("duration", .vint 50),
          ("daysinpast", .vint 1)]),
        ("checkpointDir", .vstr "/cp")]),
      ("transport", .vdict [("protocol", .vstr "TCP"),
        ("host", .vstr "x"), ("port", .vint 514)]),
      ("recoverFromCheckpoint", .vdict [("enabled", .vbool true)])]) =
      .ok () ∧
    (set_config_defaults 0 (.vdict [("duoclient", .vdict
        [("skey", .vstr "s"), ("ikey", .vstr "i"), ("host", .vstr "h")]),
      ("logs", .vdict [("logDir", .vstr "/var/log"),
        ("endpoints", .vdict [("enabled", .vstr "auth")]),
        ("polling", .vdict [("duration", .vint 50),
          ("daysinpast", .vint 1)]),
        ("checkpointDir", .vstr "/cp")]),
      ("transport", .vdict [("protocol", .vstr "TCP"),
        ("host", .vstr "x"), ("port", .vint 514)]),
      ("recoverFromCheckpoint", .vdict [("enabled", .vbool true)])])).map
      Prod.snd = some [too_low_msg] ∧
    (set_config_defaults 0 (.vdict [("duoclient", .vdict
        [("skey", .vstr "s"), ("ikey", .vstr "i"), ("host", .vstr "h")]),
      ("logs", .vdict [("logDir", .vstr "/var/log"),
        ("endpoints", .vdict [("enabled", .vstr "auth")]),
        ("polling", .vdict [("duration", .vint 50),
          ("daysinpast", .vint 1)]),
        ("checkpointDir", .vstr "/cp")]),
      ("transport", .vdict [("protocol", .vstr "TCP"),
        ("host", .vstr "x"), ("port", .vint 514)]),
      ("recoverFromCheckpoint", .vdict [("enabled", .vbool true)])])).map
      (fun rp => vget (vget (vget rp.1 "logs") "polling") "duration") =
      some (.vint 120) :=
  ⟨rfl, rfl, rfl⟩

/-- C8 (amended): on every schema-valid configuration in which every
optional field is already specified *and* `logs.polling.duration` is at
least `120`, `set_config_defaults` emits no diagnostic and preserves
every schema field; the only change is the unconditional write of the
derived `logs.offset`. -/
theorem C8_idempotent_on_full (now : Int) (c : Value)
    (hval : validate_config c = .ok ())
    (hld : vget (vget c "logs") "logDir" ≠ .vnone)
    (hdur : ∃ n : Int,
      vget (vget (vget c "logs") "polling") "duration" = .vint n ∧ 120 ≤ n)
    (hdip : vget (vget (vget c "logs") "polling") "daysinpast" ≠ .vnone)
    (hcp : vget (vget c "logs") "checkpointDir" ≠ .vnone)
    (hen : vget (vget c "recoverFromCheckpoint") "enabled" ≠ .vnone) :
    ∃ r, set_config_defaults now c = some (r, []) ∧
      vget (vget r "logs") "logDir" = vget (vget c "logs") "logDir" ∧
      vget (vget (vget r "logs") "polling") "duration" =
        vget (vget (vget c "logs") "polling") "duration" ∧
      vget (vget (vget r "logs") "polling") "daysinpast" =
        vget (vget (vget c "logs") "polling") "daysinpast" ∧
      vget (vget r "logs") "checkpointDir" =
        vget (vget c "logs") "checkpointDir" ∧
      vget (vget r "logs") "endpoints" = vget (vget c "logs") "endpoints" ∧
      vget (vget r "recoverFromCheckpoint") "enabled" =
        vget (vget c "recoverFromCheckpoint") "enabled" ∧
      vget r "duoclient" = vget c "duoclient" ∧
      vget r "transport" = vget c "transport" ∧
      (∃ d : Int,
        vget (vget (vget r "logs") "polling") "daysinpast" = .vint d ∧
        vget (vget r "logs") "offset" = .vint (now - d * 86400)) := by
  obtain ⟨ps, lps, rfl, hl, hpol, hrec, hdurS, hdipS, _, _⟩ :=
    valid_shape hval
  obtain ⟨ps', lps', pps', rps', ds1, ds2, ds3, ds4, ds5, meq, m2, m3, m4,
    m5, m6, m7, m8, m9, m10, m11, m12, m13, m14, m15, m16, m17, m18, m19⟩ :=
    defaults_master now ps lps hl hpol hrec hdurS hdipS
  obtain ⟨d, hd, hoff⟩ := m19
  have eld : vget (vget (Value.vdict ps) "logs") "logDir" =
      dget lps "logDir" := by simp [vget, hl]
  have edur : vget (vget (vget (Value.vdict ps) "logs") "polling")
      "duration" = vget (dget lps "polling") "duration" := by
    simp [vget, hl]
  have edip : vget (vget (vget (Value.vdict ps) "logs") "polling")
      "daysinpast" = vget (dget lps "polling") "daysinpast" := by
    simp [vget, hl]
  have ecp : vget (vget (Value.vdict ps) "logs") "checkpointDir" =
      dget lps "checkpointDir" := by simp [vget, hl]
  have eep : vget (vget (Value.vdict ps) "logs") "endpoints" =
      dget lps "endpoints" := by simp [vget, hl]
  have een : vget (vget (Value.vdict ps) "recoverFromCheckpoint")
      "enabled" = vget (dget ps "recoverFromCheckpoint") "enabled" := by
    simp [vget]
  rw [eld] at hld
  obtain ⟨n, hdn, h120⟩ := hdur
  rw [edur] at hdn
  rw [edip] at hdip
  rw [ecp] at hcp
  rw [een] at hen
  obtain ⟨rld, hds1⟩ := m9 hld
  obtain ⟨rdur, hds2⟩ := m12 n hdn h120
  obtain ⟨rdip, hds3⟩ := m14 hdip
  obtain ⟨rcp, hds4⟩ := m16 hcp
  obtain ⟨ren, hds5⟩ := m18 hen
  have hds : ds1 ++ ds2 ++ ds3 ++ ds4 ++ ds5 = [] := by
    rw [hds1, hds2, hds3, hds4, hds5]
    rfl
  refine ⟨.vdict ps', by rw [meq, hds], ?_, ?_, ?_, ?_, ?_, ?_, ?_, ?_,
    ?_⟩
  · rw [eld]
    simpa [vget, m2] using rld
  · rw [edur, hdn]
    simpa [vget, m2, m3] using rdur
  · rw [edip]
    simpa [vget, m2, m3] using rdip
  · rw [ecp]
    simpa [vget, m2] using rcp
  · rw [eep]
    simpa [vget, m2] using m7
  · rw [een]
    simpa [vget, m4] using ren
  · simpa [vget] using m5
  · simpa [vget] using m6
  · refine ⟨d, ?_, ?_⟩
    · simpa [vget, m2, m3] using hd
    · simpa [vget, m2] using hoff

/-- Witness for C8 (amended): a fully-specified schema-valid
configuration with duration `150` passes through with no diagnostics. -/
theorem C8_witness :
    ∃ r, set_config_defaults 500 (.vdict [("duoclient", .vdict
        [("skey", .vstr "s"), ("ikey", .vstr "i"), ("host", .vstr "h")]),
      ("logs", .vdict [("logDir", .vstr "/var/log"),
        ("endpoints", .vdict [("enabled", .vstr "auth")]),
        ("polling", .vdict [("duration", .vint 150),
          ("daysinpast", .vint 2)]),
        ("checkpointDir", .vstr "/cp")]),
      ("transport", .vdict [("protocol", .vstr "UDP"),
        ("host", .vstr "x"), ("port", .vint 514)]),
      ("recoverFromCheckpoint", .vdict [("enabled", .vbool false)])]) =
      some (r, []) ∧
      vget (vget r "logs") "logDir" =
        vget (vget (Value.vdict [("duoclient", .vdict
          [("skey", .vstr "s"), ("ikey", .vstr "i"), ("host", .vstr "h")]),
        ("logs", .vdict [("logDir", .vstr "/var/log"),
          ("endpoints", .vdict [("enabled", .vstr "auth")]),
          ("polling", .vdict [("duration", .vint 150),
            ("daysinpast", .vint 2)]),
          ("checkpointDir", .vstr "/cp")]),
        ("transport", .vdict [("protocol", .vstr "UDP"),
          ("host", .vstr "x"), ("port", .vint 514)]),
        ("recoverFromCheckpoint", .vdict [("enabled", .vbool false)])])
          "logs") "logDir" ∧
      vget (vget (vget r "logs") "polling") "duration" =
        vget (vget (vget (Value.vdict [("duoclient", .vdict
          [("skey", .vstr "s"), ("ikey", .vstr "i"), ("host", .vstr "h")]),
        ("logs", .vdict [("logDir", .vstr "/var/log"),
          ("endpoints", .vdict [("enabled", .vstr "auth")]),
          ("polling", .vdict [("duration", .vint 150),
            ("daysinpast", .vint 2)]),
          ("checkpointDir", .vstr "/cp")]),
        ("transport", .vdict [("protocol", .vstr "UDP"),
          ("host", .vstr "x"), ("port", .vint 514)]),
        ("recoverFromCheckpoint", .vdict [("enabled", .vbool false)])])
          "logs") "polling") "duration" := by
  obtain ⟨r, h1, h2, h3, _⟩ := C8_idempotent_on_full 500
    (.vdict [("duoclient", .vdict
        [("skey", .vstr "s"), ("ikey", .vstr "i"), ("host", .vstr "h")]),
      ("logs", .vdict [("logDir", .vstr "/var/log"),
        ("endpoints", .vdict [("enabled", .vstr "auth")]),
        ("polling", .vdict [("duration", .vint 150),
          ("daysinpast", .vint 2)]),
        ("checkpointDir", .vstr "/cp")]),
      ("transport", .vdict [("protocol", .vstr "UDP"),
        ("host", .vstr "x"), ("port", .vint 514)]),
      ("recoverFromCheckpoint", .vdict [("enabled", .vbool false)])])
    rfl (by simp [vget, dget]) ⟨150, rfl, by norm_num⟩
    (by simp [vget, dget]) (by simp [vget, dget]) (by simp [vget, dget])
  exact ⟨r, h1, h2, h3⟩

end DuoLogSync
